import Mathlib

/-!
Verification of the team/roster backend (FastAPI + SQLAlchemy) against its
specification.  The relevant modules are embedded shallowly:

* `app/api/v1/endpoints/teams_new.py` — token resolution, team-code
  generation, the permission check, and the team/player CRUD endpoints;
* `app/api/deps.py` — `get_current_user` / `get_optional_current_user`;
* `app/models/*.py` and `app/schemas/team.py` — the record shapes.

Database rows are Lean structures, the session is an explicit `DB` record of
row lists, `query(...).filter(...).first()` is `List.find?`, and Python
exceptions are an explicit error type.  UUID primary keys are modelled as
`Nat`.
-/

/-- Python runtime errors that the embedded code can raise. -/
inductive PyError where
  | nameError
  | typeError
  deriving DecidableEq, Repr

/-- Error outcomes of an endpoint, as HTTP-level categories; `python e` is an
uncaught Python exception escaping the handler (a 500). -/
inductive ApiError where
  | unauthorized
  | notFound
  | forbidden
  | badRequest
  | python (e : PyError)
  deriving DecidableEq, Repr

/-- Row of `users` (`app/models/user.py`, class `User`); only the fields the
embedded logic reads. -/
structure User where
  id : Nat
  email : String
  is_active : Bool
  deriving DecidableEq, Repr

/-- Row of `user_tokens` (`app/models/user.py`, class `UserToken`).  The
`expires_at` and `is_revoked` columns are carried so that their (non-)use by
token resolution can be stated. -/
structure UserToken where
  token : String
  user_id : Nat
  expires_at : Option Int
  is_revoked : Bool
  deriving DecidableEq, Repr

/-- Row of `teams` (`app/models/team.py`, class `Team`). -/
structure Team where
  id : Nat
  name : String
  team_code : String
  created_by : Nat
  max_players : Nat
  deriving DecidableEq, Repr

/-- Row of `players` (`app/models/team.py`, class `Player`). -/
structure Player where
  id : Nat
  team_id : Nat
  first_name : String
  last_name : String
  jersey_number : Nat
  position : Option String
  is_active : Bool
  deriving DecidableEq, Repr

/-- Row of `team_memberships` (`app/models/team.py`, class `TeamMembership`). -/
structure TeamMembership where
  team_id : Nat
  user_id : Nat
  role : String
  is_active : Bool
  approved : Bool
  deriving DecidableEq, Repr

/-- The relational store visible to one request: one list per table. -/
structure DB where
  users : List User
  tokens : List UserToken
  teams : List Team
  players : List Player
  memberships : List TeamMembership
  deriving DecidableEq, Repr

/-- `db.query(UserToken).filter(UserToken.token == token).first()`. -/
def tokenLookup (db : DB) (token : String) : Option UserToken :=
  db.tokens.find? (fun t => t.token == token)

/-- `db.query(User).filter(User.id == user_id).first()`. -/
def userLookup (db : DB) (uid : Nat) : Option User :=
  db.users.find? (fun u => u.id == uid)

/-- `db.query(Team).filter(Team.id == team_id).first()`. -/
def teamLookup (db : DB) (tid : Nat) : Option Team :=
  db.teams.find? (fun t => t.id == tid)

/-- `db.query(Player).filter(Player.id == player_id, Player.team_id == team_id).first()`. -/
def playerLookup (db : DB) (pid tid : Nat) : Option Player :=
  db.players.find? (fun p => p.id == pid && p.team_id == tid)

/-- Left-to-right, non-overlapping replacement of `old` by `new`, on character
lists, with explicit fuel so that it reduces definitionally; the fuel is
always instantiated with the length of the scanned list, which bounds the
number of steps. -/
def replaceListAux (old new : List Char) : Nat → List Char → List Char
  | _, [] => []
  | 0, l => l
  | fuel + 1, c :: rest =>
    if old.length ≠ 0 ∧ (c :: rest).take old.length = old then
      new ++ replaceListAux old new fuel (rest.drop (old.length - 1))
    else
      c :: replaceListAux old new fuel rest

/-- Python `str.replace(old, new)` with both arguments present: every
non-overlapping occurrence of `old` is replaced by `new`, scanning left to
right (an empty `old` is never passed by the embedded code). -/
def py_replace_str (s old new : String) : String :=
  String.mk (replaceListAux old.toList new.toList s.toList.length s.toList)

/-- Python `str.strip()` with no argument: remove leading and trailing
whitespace. -/
def py_strip (s : String) : String :=
  String.mk (((s.toList.dropWhile (fun c => c.isWhitespace)).reverse.dropWhile
    (fun c => c.isWhitespace)).reverse)

/-- Python `str.startswith(pre)`. -/
def py_startswith (s pre : String) : Bool :=
  s.toList.take pre.toList.length == pre.toList

/-- Core of `get_optional_current_user` (`app/api/deps.py` lines 105–110),
after the bearer token string has been extracted: look up the token row, then
the user row, and return the user only when it exists and is active. -/
def resolve_token (db : DB) (token : String) : Option User :=
  match tokenLookup db token with
  | none => none
  | some tk =>
    match userLookup db tk.user_id with
    | none => none
    | some u => if u.is_active then some u else none

/-- Core of `get_user_from_token` (`teams_new.py` lines 30–37), after the
bearer token string has been extracted: look up the token row, then return
whatever the user lookup yields — there is no `is_active` check here. -/
def resolve_token_teams_new (db : DB) (token : String) : Option User :=
  match tokenLookup db token with
  | none => none
  | some tk => userLookup db tk.user_id

/-- `get_user_from_token(authorization, db)` (`teams_new.py` lines 23–37):
reject a missing header or one not starting with `"Bearer "`, strip the
prefix with `str.replace` (which removes every occurrence), then resolve. -/
def get_user_from_token (db : DB) (authorization : Option String) : Option User :=
  match authorization with
  | none => none
  | some auth =>
    if py_startswith auth "Bearer " then
      resolve_token_teams_new db (py_replace_str auth "Bearer " "")
    else
      none

/-- `get_current_user` (`app/api/deps.py` lines 14–74): same lookups but as a
failing dependency — every miss is a 401 — and with the `is_active` check. -/
def get_current_user (db : DB) (authorization : Option String) : Except ApiError User :=
  match authorization with
  | none => .error .unauthorized
  | some auth =>
    if py_startswith auth "Bearer " then
      let token := py_strip (py_replace_str auth "Bearer " "")
      if token = "" then .error .unauthorized
      else
        match tokenLookup db token with
        | none => .error .unauthorized
        | some tk =>
          match userLookup db tk.user_id with
          | none => .error .unauthorized
          | some u => if u.is_active then .ok u else .error .unauthorized
    else .error .unauthorized

/-- `string.ascii_uppercase`. -/
def ascii_uppercase : String := "ABCDEFGHIJKLMNOPQRSTUVWXYZ"

/-- `string.digits`. -/
def ascii_digits : String := "0123456789"

/-- Python `str.replace`: with both arguments present it replaces every
occurrence of `old`; called with the second argument missing — as at
`teams_new.py` line 42, `chars.replace('1')` — CPython raises
`TypeError: replace expected at least 2 arguments, got 1`. -/
def py_replace (s old : String) : Option String → Except PyError String
  | some new => .ok (py_replace_str s old new)
  | none => .error .typeError

/-- `generate_team_code` (`teams_new.py` lines 39–43).  The sampling oracle
`pick` stands for `secrets.choice`: it is given the alphabet string and the
position being sampled.  Note the last `replace` call passes no second
argument, exactly as in the source. -/
def generate_team_code (pick : String → Fin 6 → Char) : Except PyError String := do
  let chars0 := ascii_uppercase ++ ascii_digits
  let chars1 ← py_replace chars0 "0" (some "")
  let chars2 ← py_replace chars1 "O" (some "")
  let chars3 ← py_replace chars2 "I" (some "")
  let chars4 ← py_replace chars3 "1" none
  return String.mk ((List.finRange 6).map (pick chars4))

/-- `check_team_permission(user, team, required_roles)` (`teams_new.py` lines
45–61).  The creator branch (lines 47–48) returns `True`.  The membership
branch (line 51) evaluates the name `db`, which is bound nowhere — the
function has no `db` parameter and the module has no global `db` — so the
query raises `NameError` before anything else happens. -/
def check_team_permission (user : User) (team : Team) (required_roles : List String) :
    Except PyError Bool :=
  if team.created_by == user.id then
    .ok true
  else
    .error .nameError

/-- The membership test that `check_team_permission` lines 50–61 spell out but
can never execute (the `db` they mention is unbound): an active, approved
membership row for this user and team whose role is in `required_roles`. -/
def membership_permitted (db : DB) (user : User) (team : Team)
    (required_roles : List String) : Bool :=
  match db.memberships.find? (fun m =>
      m.team_id == team.id && m.user_id == user.id && m.is_active && m.approved) with
  | none => false
  | some m => required_roles.contains m.role

/-- Request body `PlayerCreate` (`app/schemas/team.py`).  Its validators —
run before the handler — guarantee `1 ≤ jersey_number ≤ 99` and a position
in {Forward, Defense, Goalie}; the handler itself never rechecks them. -/
structure PlayerCreate where
  first_name : String
  last_name : String
  jersey_number : Nat
  position : Option String
  deriving DecidableEq, Repr

/-- Request body `PlayerUpdate` (`app/schemas/team.py`): every field optional,
`none` meaning absent from `dict(exclude_unset=True)`.  Note that `is_active`
is among the updatable fields. -/
structure PlayerUpdate where
  first_name : Option String := none
  last_name : Option String := none
  jersey_number : Option Nat := none
  position : Option String := none
  is_active : Option Bool := none
  deriving DecidableEq, Repr

/-- `db.query(Player).filter(Player.team_id == tid, Player.is_active == True)`. -/
def activePlayers (db : DB) (tid : Nat) : List Player :=
  db.players.filter (fun p => p.team_id == tid && p.is_active)

/-- Mutating the row object returned by `.first()` and committing: the first
row matching `pred` is rewritten by `f`, every other row is untouched. -/
def updateFirst (l : List Player) (pred : Player → Bool) (f : Player → Player) : List Player :=
  match l with
  | [] => []
  | p :: rest => if pred p then f p :: rest else p :: updateFirst rest pred f

/-- `add_player` (`teams_new.py` lines 208–274): authenticate, find the team,
check permission for {owner, coach}, reject a jersey number already held by an
active player of the team, reject a full team, then insert the new row
(`is_active` defaults to true in the model). -/
def add_player (db : DB) (team_id : Nat) (player_data : PlayerCreate)
    (authorization : Option String) (newId : Nat) : Except ApiError (Player × DB) :=
  match get_user_from_token db authorization with
  | none => .error .unauthorized
  | some user =>
    match teamLookup db team_id with
    | none => .error .notFound
    | some team =>
      match check_team_permission user team ["owner", "coach"] with
      | .error e => .error (.python e)
      | .ok false => .error .forbidden
      | .ok true =>
        match db.players.find? (fun p =>
            p.team_id == team_id && p.jersey_number == player_data.jersey_number &&
            p.is_active) with
        | some _existing => .error .badRequest
        | none =>
          if team.max_players ≤ (activePlayers db team_id).length then
            .error .badRequest
          else
            let p : Player :=
              { id := newId, team_id := team_id,
                first_name := player_data.first_name, last_name := player_data.last_name,
                jersey_number := player_data.jersey_number, position := player_data.position,
                is_active := true }
            .ok (p, { db with players := db.players ++ [p] })

/-- The `setattr` loop of `update_player` (lines 370–372): each field present
in `dict(exclude_unset=True)` overwrites the row's value. -/
def apply_player_update (p : Player) (u : PlayerUpdate) : Player :=
  { p with
    first_name := u.first_name.getD p.first_name
    last_name := u.last_name.getD p.last_name
    jersey_number := u.jersey_number.getD p.jersey_number
    position := match u.position with | some s => some s | none => p.position
    is_active := u.is_active.getD p.is_active }

/-- `update_player` (`teams_new.py` lines 314–379): authenticate, find team
and player, check permission, and — only when `jersey_number` is among the
updated fields — check that no other active player of the team holds the new
number; then apply every updated field and commit. -/
def update_player (db : DB) (team_id player_id : Nat) (player_update : PlayerUpdate)
    (authorization : Option String) : Except ApiError (Player × DB) :=
  match get_user_from_token db authorization with
  | none => .error .unauthorized
  | some user =>
    match teamLookup db team_id with
    | none => .error .notFound
    | some team =>
      match playerLookup db player_id team_id with
      | none => .error .notFound
      | some player =>
        match check_team_permission user team ["owner", "coach"] with
        | .error e => .error (.python e)
        | .ok false => .error .forbidden
        | .ok true =>
          let conflict : Bool :=
            match player_update.jersey_number with
            | some n =>
              (db.players.find? (fun p =>
                p.team_id == team_id && p.jersey_number == n && p.is_active &&
                !(p.id == player_id))).isSome
            | none => false
          if conflict then
            .error .badRequest
          else
            .ok (apply_player_update player player_update,
                 { db with players :=
                     (updateFirst db.players
                       (fun q => q.id == player_id && q.team_id == team_id)
                       (fun q => apply_player_update q player_update)) })

/-- The store after the soft delete of `remove_player` lines 420–422: the
targeted row's `is_active` is set to false; the row itself stays. -/
def soft_delete_state (db : DB) (team_id player_id : Nat) : DB :=
  { db with players :=
      (updateFirst db.players
        (fun q => q.id == player_id && q.team_id == team_id)
        (fun q => { q with is_active := false })) }

/-- `remove_player` (`teams_new.py` lines 381–426): authenticate, find team
and player, check permission for {owner}, then soft-delete: set the row's
`is_active` to false and commit; the row itself stays. -/
def remove_player (db : DB) (team_id player_id : Nat) (authorization : Option String) :
    Except ApiError DB :=
  match get_user_from_token db authorization with
  | none => .error .unauthorized
  | some user =>
    match teamLookup db team_id with
    | none => .error .notFound
    | some team =>
      match playerLookup db player_id team_id with
      | none => .error .notFound
      | some _player =>
        match check_team_permission user team ["owner"] with
        | .error e => .error (.python e)
        | .ok false => .error .forbidden
        | .ok true => .ok (soft_delete_state db team_id player_id)

/-- Jersey numbers of the team's active players, in table order
(`teams_new.py` lines 452–458). -/
def taken_numbers (db : DB) (tid : Nat) : List Nat :=
  (activePlayers db tid).map (fun p => p.jersey_number)

/-- Response schema `AvailableJerseyNumbers` (`app/schemas/team.py`);
`reserved_numbers` is always `[]` in the source and is omitted. -/
structure AvailableJerseyNumbers where
  available_numbers : List Nat
  taken_numbers : List Nat
  deriving DecidableEq, Repr

/-- The available/taken split of `get_available_jersey_numbers` lines 451–468:
`all_numbers = list(range(1, 100))`, availability by list difference, taken
returned sorted. -/
def jersey_numbers_split (db : DB) (tid : Nat) : AvailableJerseyNumbers :=
  let taken := taken_numbers db tid
  let all_numbers := List.range' 1 99
  { available_numbers := all_numbers.filter (fun n => !(taken.contains n))
    taken_numbers := taken.mergeSort (fun a b => a ≤ b) }

/-- `get_available_jersey_numbers` (`teams_new.py` lines 430–468): the only
gates are authentication and team existence — no `check_team_permission`
call appears in this handler. -/
def get_available_jersey_numbers (db : DB) (team_id : Nat)
    (authorization : Option String) : Except ApiError AvailableJerseyNumbers :=
  match get_user_from_token db authorization with
  | none => .error .unauthorized
  | some _user =>
    match teamLookup db team_id with
    | none => .error .notFound
    | some _team => .ok (jersey_numbers_split db team_id)

/-- `get_team_players` (`teams_new.py` lines 276–312): authenticate, find the
team, check permission for any of {owner, coach, parent, viewer}, then list
the (optionally active-only) players ordered by jersey number. -/
def get_team_players (db : DB) (team_id : Nat) (active_only : Bool)
    (authorization : Option String) : Except ApiError (List Player) :=
  match get_user_from_token db authorization with
  | none => .error .unauthorized
  | some user =>
    match teamLookup db team_id with
    | none => .error .notFound
    | some team =>
      match check_team_permission user team ["owner", "coach", "parent", "viewer"] with
      | .error e => .error (.python e)
      | .ok false => .error .forbidden
      | .ok true =>
        .ok ((db.players.filter (fun p =>
                p.team_id == team_id && (!active_only || p.is_active))).mergeSort
              (fun a b => a.jersey_number ≤ b.jersey_number))

/-- Request body `TeamCreate` (`app/schemas/team.py`), reduced to the fields
the embedded logic reads. -/
structure TeamCreate where
  name : String
  max_players : Nat
  deriving DecidableEq, Repr

/-- The team row built by `create_team` lines 85–89. -/
def new_team_row (team_data : TeamCreate) (code : String) (creator teamId : Nat) : Team :=
  { id := teamId, name := team_data.name, team_code := code,
    created_by := creator, max_players := team_data.max_players }

/-- The owner membership row built by `create_team` lines 96–100 (`role`
"owner"; the `is_active` and `approved` columns default to true). -/
def new_owner_membership (teamId userId : Nat) : TeamMembership :=
  { team_id := teamId, user_id := userId, role := "owner",
    is_active := true, approved := true }

/-- The persistence section of `create_team` (`teams_new.py` lines 85–102)
issues two separate `db.commit()` calls: line 92 makes the team row durable,
line 102 the owner membership.  This is the sequence of durable store states
it produces once a team code has been obtained.  (As written,
`generate_team_code` raises `TypeError` before this section is reached, so
the section describes the path the code takes whenever a code is produced.) -/
def create_team_commit_states (db : DB) (user : User) (team_data : TeamCreate)
    (code : String) (teamId : Nat) : List DB :=
  let db1 := { db with teams := db.teams ++ [new_team_row team_data code user.id teamId] }
  let db2 := { db1 with memberships :=
                 db1.memberships ++ [new_owner_membership teamId user.id] }
  [db1, db2]

/-- Spec invariant: no two active players on the same team share a jersey
number, stated over the rows of the `players` table. -/
def jerseyInvariant (players : List Player) (tid : Nat) : Prop :=
  List.Pairwise (fun p q =>
    p.team_id = tid → q.team_id = tid → p.is_active = true → q.is_active = true →
    p.jersey_number ≠ q.jersey_number) players

/-- Primary-key well-formedness of the `players` table: row ids are distinct. -/
def distinctIds (players : List Player) : Prop :=
  List.Pairwise (fun p q => p.id ≠ q.id) players

/-! ### Concrete fixtures used by witnesses and counterexamples -/

/-- An active user; creator of `team1`. -/
def alice : User := { id := 1, email := "alice@example.com", is_active := true }

/-- An active user with no relation to `team1`. -/
def bob : User := { id := 2, email := "bob@example.com", is_active := true }

/-- A deactivated user. -/
def carol : User := { id := 3, email := "carol@example.com", is_active := false }

/-- A live token for `alice`. -/
def tokenA : UserToken := { token := "tokA", user_id := 1, expires_at := none, is_revoked := false }

/-- A live token for `bob`. -/
def tokenB : UserToken := { token := "tokB", user_id := 2, expires_at := none, is_revoked := false }

/-- A live token for the deactivated user `carol`. -/
def tokenC : UserToken := { token := "tokC", user_id := 3, expires_at := none, is_revoked := false }

/-- A team created by `alice`. -/
def team1 : Team :=
  { id := 1, name := "Lightning U14", team_code := "ABCDEF", created_by := 1, max_players := 25 }

/-- Active player wearing number 9 on `team1`. -/
def playerNine : Player :=
  { id := 1, team_id := 1, first_name := "A.", last_name := "Smith",
    jersey_number := 9, position := some "Forward", is_active := true }

/-- Soft-deleted player who also wore number 9 on `team1`. -/
def removedNine : Player :=
  { id := 2, team_id := 1, first_name := "B.", last_name := "Jones",
    jersey_number := 9, position := some "Defense", is_active := false }

/-- The base store for concrete runs. -/
def baseDB : DB :=
  { users := [alice, bob, carol], tokens := [tokenA, tokenB, tokenC],
    teams := [team1], players := [playerNine, removedNine], memberships := [] }

/-- Team-creation request used in concrete runs. -/
def teamReq : TeamCreate := { name := "Thunder U12", max_players := 25 }

/-! ### C2 — team-code generation -/

/-- C2: `generate_team_code` never returns a code: the call
`chars.replace('1')` at line 42 passes a single argument to `str.replace`, so
every invocation raises `TypeError` before any character is sampled,
whatever the sampling oracle would have chosen. -/
theorem generate_team_code_raises_typeError :
    ∀ pick : String → Fin 6 → Char,
      generate_team_code pick = .error PyError.typeError := by
  intro pick
  rfl

/-! ### C3 — totality of the permission check -/

/-- C3: `check_team_permission` is not total: for a caller who is not the
team's creator (here `bob` asking about `team1`, a team with an empty
membership table) it raises `NameError` — the membership query at line 51
reads a variable `db` that is bound nowhere — instead of returning `false`. -/
theorem check_team_permission_raises_on_non_creator :
    check_team_permission bob team1 ["owner", "coach"] = .error PyError.nameError := by
  rfl

/-! ### C4 — the creator short-circuit -/

/-- C4: whenever the calling user is the team's creator,
`check_team_permission` returns `true`.  The function reads no membership
state at all (it could not: no store is in scope), so the result is
independent of the membership table, including the case of no membership row
whatsoever. -/
theorem creator_has_all_permissions :
    ∀ (user : User) (team : Team) (required_roles : List String),
      team.created_by = user.id →
      check_team_permission user team required_roles = .ok true := by
  intro user team required_roles h
  simp [check_team_permission, h]

/-- Witness for C4: `alice` created `team1`, and the check grants her any
role set even though `baseDB` holds no membership rows. -/
theorem creator_has_all_permissions_witness :
    team1.created_by = alice.id ∧
    check_team_permission alice team1 ["owner", "coach", "parent", "viewer"] = .ok true :=
  ⟨rfl, creator_has_all_permissions alice team1 ["owner", "coach", "parent", "viewer"] rfl⟩

/-! ### C5 — atomicity of team creation -/

/-- The durable store after only the first commit of `create_team`
(line 92): the team row is persisted, the membership table untouched. -/
def partialCommitState : DB :=
  { baseDB with teams := baseDB.teams ++ [new_team_row teamReq "XYZABC" 1 2] }

/-- C5 counterexample: the persistence section of `create_team` commits in
two steps, and the state made durable by the first commit (`db.commit()` at
line 92) contains the new team but no owner membership — it differs from the
pre-call store, so a failure between the two commits does not leave the store
as it was, and leaves exactly one of the two records in existence. -/
theorem create_team_partial_commit_counterexample :
    (create_team_commit_states baseDB alice teamReq "XYZABC" 2).head? =
      some partialCommitState ∧
    partialCommitState.teams ≠ baseDB.teams ∧
    partialCommitState.memberships = baseDB.memberships := by
  refine ⟨rfl, ?_, rfl⟩
  decide

/-- C5 amended: `create_team` persists the team and the owner membership in
two separate commits.  The first durable state extends the store with the
team row only; the second adds the owner membership.  Only after the second
commit do both records exist, so the operation is atomic only from the second
commit on, not as a whole. -/
theorem create_team_two_commit_states :
    ∀ (db : DB) (user : User) (team_data : TeamCreate) (code : String) (teamId : Nat),
      create_team_commit_states db user team_data code teamId =
        [{ db with teams := db.teams ++ [new_team_row team_data code user.id teamId] },
         { db with
             teams := db.teams ++ [new_team_row team_data code user.id teamId],
             memberships := db.memberships ++ [new_owner_membership teamId user.id] }] := by
  intro db user team_data code teamId
  rfl

instance : ∀ (l : List Player) (tid : Nat), Decidable (jerseyInvariant l tid) := by
  intro l tid
  unfold jerseyInvariant
  infer_instance

instance : ∀ (l : List Player), Decidable (distinctIds l) := by
  intro l
  unfold distinctIds
  infer_instance

/-! ### C6 — the available/taken split -/

/-- Update request renumbering a player to 150.  `PlayerUpdate`
(`schemas/team.py` lines 51–68) extends `BaseModel`, not `PlayerBase`, so no
jersey-number range validator runs on updates and 150 passes request
validation. -/
def upd150 : PlayerUpdate := { jersey_number := some 150 }

/-- `playerNine` renumbered to 150. -/
def p150 : Player := { playerNine with jersey_number := 150 }

/-- The store after `update_player` persists the out-of-range number 150. -/
def db150 : DB := { baseDB with players := [p150, removedNine] }

/-- C6 counterexample: `update_player` accepts `{jersey_number: 150}` (its
schema has no range validator and the conflict check only compares numbers),
reaching a state whose taken list contains 150; there
`available ∪ taken ≠ {1..99}`, refuting the claim for this reachable team
state. -/
theorem available_jersey_numbers_out_of_range_counterexample :
    update_player baseDB 1 1 upd150 (some "Bearer tokA") = .ok (p150, db150) ∧
    150 ∈ (jersey_numbers_split db150 1).taken_numbers ∧
    150 ∉ Finset.Icc 1 99 ∧
    (jersey_numbers_split db150 1).available_numbers.toFinset ∪
      (jersey_numbers_split db150 1).taken_numbers.toFinset ≠ Finset.Icc 1 99 := by
  have hmem : 150 ∈ (jersey_numbers_split db150 1).taken_numbers :=
    (List.mergeSort_perm (taken_numbers db150 1) _).mem_iff.mpr (by decide)
  refine ⟨rfl, hmem, by decide, ?_⟩
  intro h
  have h150 : 150 ∈ Finset.Icc 1 99 := by
    rw [← h]
    exact Finset.mem_union_right _ (List.mem_toFinset.mpr hmem)
  exact absurd h150 (by decide)

/-- C6 amended: in every team state the split has empty intersection, a
sorted taken component, and taken equal as a set to the active players'
numbers; the union covers exactly {1..99} whenever the active players'
numbers lie in 1..99 — which `add_player` guarantees for rows it creates
(`PlayerCreate` validates 1–99) but `update_player` does not preserve
(`PlayerUpdate` has no range validator), so the union clause can fail in a
reachable state. -/
theorem available_jersey_numbers_spec :
    ∀ (db : DB) (tid : Nat),
      ((∀ p ∈ activePlayers db tid, 1 ≤ p.jersey_number ∧ p.jersey_number ≤ 99) →
        (jersey_numbers_split db tid).available_numbers.toFinset ∪
          (jersey_numbers_split db tid).taken_numbers.toFinset = Finset.Icc 1 99) ∧
      ((jersey_numbers_split db tid).available_numbers.toFinset ∩
        (jersey_numbers_split db tid).taken_numbers.toFinset = ∅) ∧
      List.Sorted (· ≤ ·) (jersey_numbers_split db tid).taken_numbers ∧
      (jersey_numbers_split db tid).taken_numbers.toFinset =
        (taken_numbers db tid).toFinset := by
  intro db tid
  have hav : ∀ n, n ∈ (jersey_numbers_split db tid).available_numbers ↔
      ((1 ≤ n ∧ n < 100) ∧ n ∉ taken_numbers db tid) := by
    intro n
    simp [jersey_numbers_split, List.mem_filter, List.mem_range'_1]
  have hts : ∀ n, n ∈ (jersey_numbers_split db tid).taken_numbers ↔
      n ∈ taken_numbers db tid := by
    intro n
    exact (List.mergeSort_perm _ _).mem_iff
  have hperm : (jersey_numbers_split db tid).taken_numbers.toFinset =
      (taken_numbers db tid).toFinset :=
    List.toFinset_eq_of_perm _ _ (List.mergeSort_perm _ _)
  refine ⟨?_, ?_, ?_, ?_⟩
  · intro h
    have htk : ∀ n ∈ taken_numbers db tid, 1 ≤ n ∧ n ≤ 99 := by
      intro n hn
      obtain ⟨p, hp, rfl⟩ := List.mem_map.1 hn
      exact h p hp
    ext n
    simp only [Finset.mem_union, List.mem_toFinset, hav, hts, Finset.mem_Icc]
    constructor
    · rintro (⟨⟨h1, h2⟩, _⟩ | hn)
      · exact ⟨h1, by omega⟩
      · exact htk n hn
    · intro hn
      by_cases hmem : n ∈ taken_numbers db tid
      · exact Or.inr hmem
      · exact Or.inl ⟨⟨hn.1, by omega⟩, hmem⟩
  · ext n
    simp only [Finset.mem_inter, List.mem_toFinset, hav, hts, Finset.not_mem_empty,
      iff_false, not_and]
    intro hav2
    exact hav2.2
  · exact List.sorted_mergeSort' _
  · exact hperm

/-- Witness for C6: the split for `team1` in the base store, whose single
active player wears the in-range number 9. -/
theorem available_jersey_numbers_spec_witness :
    (∀ p ∈ activePlayers baseDB 1, 1 ≤ p.jersey_number ∧ p.jersey_number ≤ 99) ∧
    (((jersey_numbers_split baseDB 1).available_numbers.toFinset ∪
       (jersey_numbers_split baseDB 1).taken_numbers.toFinset = Finset.Icc 1 99) ∧
     ((jersey_numbers_split baseDB 1).available_numbers.toFinset ∩
       (jersey_numbers_split baseDB 1).taken_numbers.toFinset = ∅) ∧
     List.Sorted (· ≤ ·) (jersey_numbers_split baseDB 1).taken_numbers ∧
     (jersey_numbers_split baseDB 1).taken_numbers.toFinset =
       (taken_numbers baseDB 1).toFinset) :=
  ⟨by decide,
   (available_jersey_numbers_spec baseDB 1).1 (by decide),
   (available_jersey_numbers_spec baseDB 1).2.1,
   (available_jersey_numbers_spec baseDB 1).2.2.1,
   (available_jersey_numbers_spec baseDB 1).2.2.2⟩

/-! ### C8 — what makes token resolution fail -/

/-- C8 counterexample: `carol` is deactivated, yet `get_user_from_token` —
the resolver actually used by every team/roster endpoint — still returns her:
it never consults `is_active`, so "user inactive" is not among its failure
conditions, contrary to the claim. -/
theorem get_user_from_token_inactive_counterexample :
    carol.is_active = false ∧
    get_user_from_token baseDB (some "Bearer tokC") = some carol :=
  ⟨rfl, rfl⟩

/-- C8 amended: the deps resolver (`get_optional_current_user`) returns
`none` exactly when the token row is absent, the referenced user is absent,
or that user is inactive; the teams resolver (`get_user_from_token`) returns
`none` exactly when the token row or the user is absent — an inactive user is
returned as a success. -/
theorem token_resolution_characterization :
    ∀ (db : DB) (token : String),
      (resolve_token db token = none ↔
        ¬ ∃ tk u, tokenLookup db token = some tk ∧ userLookup db tk.user_id = some u ∧
          u.is_active = true) ∧
      (resolve_token_teams_new db token = none ↔
        ¬ ∃ tk u, tokenLookup db token = some tk ∧ userLookup db tk.user_id = some u) := by
  intro db token
  constructor
  · unfold resolve_token
    rcases h1 : tokenLookup db token with _ | tk
    · simp [h1]
    · rcases h2 : userLookup db tk.user_id with _ | u
      · simp [h2]
      · rcases h3 : u.is_active with _ | _ <;> simp [h2, h3]
  · unfold resolve_token_teams_new
    rcases h1 : tokenLookup db token with _ | tk
    · simp [h1]
    · rcases h2 : userLookup db tk.user_id with _ | u <;> simp [h2]

/-! ### C9 — expiry and revocation metadata are never consulted -/

/-- Projection of a token row to the only fields token resolution ever reads:
the token string and the referenced user id. -/
def tokenKey (t : UserToken) : String × Nat := (t.token, t.user_id)

/-- Token lookups agree on any two token tables that agree after erasing the
`expires_at` and `is_revoked` metadata. -/
theorem find?_map_user_id_congr :
    ∀ (l1 l2 : List UserToken), l1.map tokenKey = l2.map tokenKey → ∀ s : String,
      (l1.find? (fun t => t.token == s)).map (fun t => t.user_id) =
      (l2.find? (fun t => t.token == s)).map (fun t => t.user_id) := by
  intro l1
  induction l1 with
  | nil =>
    intro l2 h s
    cases l2 with
    | nil => rfl
    | cons t2 r2 => simp at h
  | cons t1 r1 ih =>
    intro l2 h s
    cases l2 with
    | nil => simp at h
    | cons t2 r2 =>
      simp only [List.map_cons, List.cons.injEq, tokenKey, Prod.mk.injEq] at h
      obtain ⟨⟨htok, huid⟩, hrest⟩ := h
      rcases hs : (t1.token == s) with _ | _
      · have hs2 : (t2.token == s) = false := by rw [← htok]; exact hs
        simpa [List.find?_cons, hs, hs2] using ih r2 hrest s
      · have hs2 : (t2.token == s) = true := by rw [← htok]; exact hs
        simp [List.find?_cons, hs, hs2, huid]

/-- C9: every token resolver in the code base — the deps success/failure
variants and the teams-module resolver — is invariant under arbitrary changes
to the `expires_at` and `is_revoked` columns: two stores with the same users
and the same token table up to that metadata resolve every header and every
token string identically.  In particular an expired or revoked token
resolves exactly like a live one. -/
theorem token_resolution_ignores_expiry_metadata :
    ∀ (db1 db2 : DB) (auth : Option String) (s : String),
      db1.users = db2.users →
      db1.tokens.map tokenKey = db2.tokens.map tokenKey →
      resolve_token db1 s = resolve_token db2 s ∧
      resolve_token_teams_new db1 s = resolve_token_teams_new db2 s ∧
      get_current_user db1 auth = get_current_user db2 auth ∧
      get_user_from_token db1 auth = get_user_from_token db2 auth := by
  intro db1 db2 auth s hu ht
  have key : ∀ r : String,
      (db1.tokens.find? (fun t => t.token == r)).map (fun t => t.user_id) =
      (db2.tokens.find? (fun t => t.token == r)).map (fun t => t.user_id) :=
    fun r => find?_map_user_id_congr _ _ ht r
  have h1 : ∀ r, resolve_token db1 r = resolve_token db2 r := by
    intro r
    unfold resolve_token tokenLookup userLookup
    rw [hu]
    have h := key r
    rcases e1 : db1.tokens.find? (fun t => t.token == r) with _ | tk1 <;>
      rcases e2 : db2.tokens.find? (fun t => t.token == r) with _ | tk2 <;>
        rw [e1, e2] at h ⊢ <;> simp_all
  have h2 : ∀ r, resolve_token_teams_new db1 r = resolve_token_teams_new db2 r := by
    intro r
    unfold resolve_token_teams_new tokenLookup userLookup
    rw [hu]
    have h := key r
    rcases e1 : db1.tokens.find? (fun t => t.token == r) with _ | tk1 <;>
      rcases e2 : db2.tokens.find? (fun t => t.token == r) with _ | tk2 <;>
        rw [e1, e2] at h ⊢ <;> simp_all
  have h3 : get_current_user db1 auth = get_current_user db2 auth := by
    unfold get_current_user tokenLookup userLookup
    cases auth with
    | none => rfl
    | some a =>
      rcases hb : py_startswith a "Bearer " with _ | _
      · simp [hb]
      · simp only [hb]
        rw [hu]
        have h := key (py_strip (py_replace_str a "Bearer " ""))
        rcases e1 : db1.tokens.find?
            (fun t => t.token == py_strip (py_replace_str a "Bearer " "")) with _ | tk1 <;>
          rcases e2 : db2.tokens.find?
              (fun t => t.token == py_strip (py_replace_str a "Bearer " "")) with _ | tk2 <;>
            rw [e1, e2] at h ⊢ <;> simp_all
  have h4 : get_user_from_token db1 auth = get_user_from_token db2 auth := by
    unfold get_user_from_token
    cases auth with
    | none => rfl
    | some a =>
      rcases hb : py_startswith a "Bearer " with _ | _ <;> simp [hb, h2]
  exact ⟨h1 s, h2 s, h3, h4⟩

/-- `alice`'s token marked expired in the past and revoked; the other rows
unchanged. -/
def expiredDB : DB :=
  { baseDB with tokens :=
      [{ tokenA with expires_at := some (-1), is_revoked := true }, tokenB, tokenC] }

/-- Witness for C9: marking `alice`'s token expired and revoked changes no
resolution result, and the revoked, expired token still resolves to `alice`. -/
theorem token_resolution_ignores_expiry_metadata_witness :
    baseDB.users = expiredDB.users ∧
    baseDB.tokens.map tokenKey = expiredDB.tokens.map tokenKey ∧
    resolve_token baseDB "tokA" = resolve_token expiredDB "tokA" ∧
    resolve_token expiredDB "tokA" = some alice :=
  ⟨rfl, rfl,
   (token_resolution_ignores_expiry_metadata baseDB expiredDB (some "Bearer tokA")
      "tokA" rfl rfl).1,
   rfl⟩

/-! ### C10 — no permission gate on the available-numbers endpoint -/

/-- C10: for any store, any header that resolves to a user — related to the
team or not — and any existing team, `get_available_jersey_numbers` returns
the split of the team's numbers; it consults no membership and no role, and
in particular it can return neither `forbidden` nor any other error. -/
theorem available_numbers_no_permission_check :
    ∀ (db : DB) (team_id : Nat) (auth : Option String) (user : User) (team : Team),
      get_user_from_token db auth = some user →
      teamLookup db team_id = some team →
      get_available_jersey_numbers db team_id auth =
        .ok (jersey_numbers_split db team_id) ∧
      ∀ e : ApiError, get_available_jersey_numbers db team_id auth ≠ .error e := by
  intro db tid auth u t h1 h2
  unfold get_available_jersey_numbers
  rw [h1, h2]
  exact ⟨rfl, fun e h => by cases h⟩

/-- Witness for C10: `bob` — neither creator nor member of `team1`, with an
empty membership table — reads `team1`'s jersey-number split. -/
theorem available_numbers_no_permission_check_witness :
    get_user_from_token baseDB (some "Bearer tokB") = some bob ∧
    teamLookup baseDB 1 = some team1 ∧
    get_available_jersey_numbers baseDB 1 (some "Bearer tokB") =
      .ok (jersey_numbers_split baseDB 1) :=
  ⟨rfl, rfl,
   (available_numbers_no_permission_check baseDB 1 (some "Bearer tokB") bob team1
      rfl rfl).1⟩

/-! ### C7 — soft delete frees the jersey number -/

/-- C7: when the caller is the team's creator (the only caller the permission
check as written can admit), removing a found player succeeds as a soft
delete, and a subsequent `add_player` on the same team with the removed
player's number succeeds, provided no other active player holds that number
after the removal and the team is below capacity. -/
theorem remove_player_frees_jersey_number :
    ∀ (db : DB) (auth : Option String) (tid pid newId : Nat) (user : User) (team : Team)
      (p : Player) (pd : PlayerCreate),
      get_user_from_token db auth = some user →
      teamLookup db tid = some team →
      team.created_by = user.id →
      playerLookup db pid tid = some p →
      pd.jersey_number = p.jersey_number →
      (∀ q ∈ activePlayers (soft_delete_state db tid pid) tid,
          q.jersey_number ≠ pd.jersey_number) →
      (activePlayers (soft_delete_state db tid pid) tid).length < team.max_players →
      remove_player db tid pid auth = .ok (soft_delete_state db tid pid) ∧
      ∃ p' : Player,
        add_player (soft_delete_state db tid pid) tid pd auth newId =
          .ok (p', { soft_delete_state db tid pid with
                     players := (soft_delete_state db tid pid).players ++ [p'] }) ∧
        p'.jersey_number = pd.jersey_number := by
  intro db auth tid pid newId user team p pd hauth hteam hcreator hplayer hnum hno hcap
  have hperm : check_team_permission user team ["owner"] = .ok true := by
    simp [check_team_permission, hcreator]
  have hperm2 : check_team_permission user team ["owner", "coach"] = .ok true := by
    simp [check_team_permission, hcreator]
  have hauth' : get_user_from_token (soft_delete_state db tid pid) auth = some user := by
    rw [← hauth]; rfl
  have hteam' : teamLookup (soft_delete_state db tid pid) tid = some team := by
    rw [← hteam]; rfl
  constructor
  · simp only [remove_player, hauth, hteam, hplayer, hperm]
  · refine ⟨{ id := newId, team_id := tid, first_name := pd.first_name,
              last_name := pd.last_name, jersey_number := pd.jersey_number,
              position := pd.position, is_active := true }, ?_, rfl⟩
    have hfind : (soft_delete_state db tid pid).players.find? (fun q =>
        q.team_id == tid && q.jersey_number == pd.jersey_number && q.is_active) = none := by
      apply List.find?_eq_none.mpr
      intro q hq hpred
      simp only [Bool.and_eq_true, beq_iff_eq] at hpred
      obtain ⟨⟨hqt, hqj⟩, hqa⟩ := hpred
      refine absurd hqj (hno q ?_)
      unfold activePlayers
      exact List.mem_filter.mpr ⟨hq, by simp [hqt, hqa]⟩
    have hcap' : ¬ team.max_players ≤
        (activePlayers (soft_delete_state db tid pid) tid).length := by
      omega
    simp only [add_player, hauth', hteam', hperm2, hfind, if_neg hcap']

/-- Roster request reusing the freed number 9. -/
def pdNine : PlayerCreate :=
  { first_name := "C.", last_name := "Nine", jersey_number := 9, position := some "Forward" }

/-- Witness for C7: `alice` removes `playerNine` from `team1`, then adds a new
number-9 player; both calls succeed. -/
theorem remove_player_frees_jersey_number_witness :
    playerLookup baseDB 1 1 = some playerNine ∧
    (remove_player baseDB 1 1 (some "Bearer tokA") = .ok (soft_delete_state baseDB 1 1) ∧
     ∃ p', add_player (soft_delete_state baseDB 1 1) 1 pdNine (some "Bearer tokA") 3 =
         .ok (p', { soft_delete_state baseDB 1 1 with
                    players := (soft_delete_state baseDB 1 1).players ++ [p'] }) ∧
         p'.jersey_number = pdNine.jersey_number) :=
  ⟨rfl, remove_player_frees_jersey_number baseDB (some "Bearer tokA") 1 1 3 alice team1
      playerNine pdNine rfl rfl rfl rfl rfl (by decide) (by decide)⟩

/-! ### C1 — the jersey-number invariant under roster operations -/

/-- Members of an `updateFirst` image are original rows or the image of a row
matched by the predicate. -/
theorem mem_updateFirst :
    ∀ (l : List Player) (pred : Player → Bool) (f : Player → Player) (x : Player),
      x ∈ updateFirst l pred f →
      x ∈ l ∨ ∃ q, q ∈ l ∧ pred q = true ∧ x = f q := by
  intro l pred f x
  induction l with
  | nil => intro h; simp [updateFirst] at h
  | cons a rest ih =>
    intro h
    unfold updateFirst at h
    by_cases ha : pred a
    · rw [if_pos ha] at h
      rcases List.mem_cons.mp h with h1 | h2
      · exact Or.inr ⟨a, List.mem_cons_self a rest, ha, h1⟩
      · exact Or.inl (List.mem_cons_of_mem a h2)
    · rw [if_neg ha] at h
      rcases List.mem_cons.mp h with h1 | h2
      · exact Or.inl (h1 ▸ List.mem_cons_self a rest)
      · rcases ih h2 with h3 | ⟨q, hq, hpq, hxq⟩
        · exact Or.inl (List.mem_cons_of_mem a h3)
        · exact Or.inr ⟨q, List.mem_cons_of_mem a hq, hpq, hxq⟩

/-- A pairwise relation survives rewriting the first matched row when the
rewrite keeps the relation with every other row (rows being distinguished by
their ids). -/
theorem pairwise_updateFirst {R : Player → Player → Prop} :
    ∀ (l : List Player) (pred : Player → Bool) (f : Player → Player),
      List.Pairwise R l →
      List.Pairwise (fun p q => p.id ≠ q.id) l →
      (∀ a ∈ l, pred a = true → ∀ b ∈ l, b.id ≠ a.id →
        (R a b → R (f a) b) ∧ (R b a → R b (f a))) →
      List.Pairwise R (updateFirst l pred f) := by
  intro l pred f hR hid H
  induction l with
  | nil => simp [updateFirst]
  | cons a rest ih =>
    rw [List.pairwise_cons] at hR hid
    obtain ⟨hRa, hRrest⟩ := hR
    obtain ⟨hida, hidrest⟩ := hid
    unfold updateFirst
    by_cases ha : pred a
    · rw [if_pos ha, List.pairwise_cons]
      refine ⟨?_, hRrest⟩
      intro b hb
      exact (H a (List.mem_cons_self a rest) ha b (List.mem_cons_of_mem a hb)
        (fun h => hida b hb h.symm)).1 (hRa b hb)
    · rw [if_neg ha, List.pairwise_cons]
      constructor
      · intro b hb
        rcases mem_updateFirst rest pred f b hb with h1 | ⟨q, hq, hpq, rfl⟩
        · exact hRa b h1
        · exact (H q (List.mem_cons_of_mem a hq) hpq a (List.mem_cons_self a rest)
            (hida q hq)).2 (hRa q hq)
      · apply ih hRrest hidrest
        intro x hx hpx b hb hbid
        exact H x (List.mem_cons_of_mem a hx) hpx b (List.mem_cons_of_mem a hb) hbid

/-- What a successful `add_player` guarantees: the conflict query found no
active same-number player on the team, and the store gained exactly the new
row. -/
theorem add_player_ok_inversion :
    ∀ (db : DB) (tid : Nat) (pd : PlayerCreate) (auth : Option String) (newId : Nat)
      (pA : Player) (dbA : DB),
      add_player db tid pd auth newId = .ok (pA, dbA) →
      db.players.find? (fun p =>
        p.team_id == tid && p.jersey_number == pd.jersey_number && p.is_active) = none ∧
      pA = { id := newId, team_id := tid, first_name := pd.first_name,
             last_name := pd.last_name, jersey_number := pd.jersey_number,
             position := pd.position, is_active := true } ∧
      dbA = { db with players := db.players ++ [pA] } := by
  intro db tid pd auth newId pA dbA hok
  unfold add_player at hok
  split at hok
  · exact (Except.noConfusion hok)
  · split at hok
    · exact (Except.noConfusion hok)
    · split at hok
      · exact (Except.noConfusion hok)
      · exact (Except.noConfusion hok)
      · split at hok
        · exact (Except.noConfusion hok)
        · next hfind =>
          split at hok
          · exact (Except.noConfusion hok)
          · injection hok with h
            injection h with h1 h2
            subst h1
            exact ⟨hfind, rfl, h2.symm⟩

/-- What a successful `update_player` guarantees: the player row was found;
if `jersey_number` was among the updated fields, the exclusivity query (which
skips the player's own row) found no conflict; and exactly that row was
rewritten by the update. -/
theorem update_player_ok_inversion :
    ∀ (db : DB) (tid pid : Nat) (u : PlayerUpdate) (auth : Option String)
      (pU : Player) (dbU : DB),
      update_player db tid pid u auth = .ok (pU, dbU) →
      ∃ player, playerLookup db pid tid = some player ∧
        (∀ n, u.jersey_number = some n →
          db.players.find? (fun p => p.team_id == tid && p.jersey_number == n &&
            p.is_active && !(p.id == pid)) = none) ∧
        pU = apply_player_update player u ∧
        dbU = { db with players :=
                  (updateFirst db.players
                    (fun q => q.id == pid && q.team_id == tid)
                    (fun q => apply_player_update q u)) } := by
  intro db tid pid u auth pU dbU hok
  unfold update_player at hok
  split at hok
  · exact (Except.noConfusion hok)
  · split at hok
    · exact (Except.noConfusion hok)
    · split at hok
      · exact (Except.noConfusion hok)
      · next player hpl =>
        split at hok
        · exact (Except.noConfusion hok)
        · exact (Except.noConfusion hok)
        · split at hok
          · next n hjn =>
            simp only [] at hok
            split at hok
            · exact (Except.noConfusion hok)
            · next hconf =>
              injection hok with h
              injection h with h1 h2
              refine ⟨player, hpl, ?_, h1.symm, h2.symm⟩
              intro m hm
              rw [hjn] at hm
              injection hm with hm
              subst hm
              simpa using hconf
          · next hjn =>
            simp only [] at hok
            split at hok
            · exact (Except.noConfusion hok)
            · injection hok with h
              injection h with h1 h2
              refine ⟨player, hpl, ?_, h1.symm, h2.symm⟩
              intro m hm
              rw [hjn] at hm
              exact (Option.noConfusion hm)

/-- Reactivation request: only `is_active = true`, no jersey number. -/
def reactivate : PlayerUpdate := { is_active := some true }

/-- `removedNine` turned active again. -/
def pNineBack : Player := { removedNine with is_active := true }

/-- The store after reactivating `removedNine`: two active number-9 players. -/
def reactivatedDB : DB := { baseDB with players := [playerNine, pNineBack] }

/-- C1 counterexample: `update_player` runs its exclusivity check only when
`jersey_number` is among the updated fields.  Reactivating the soft-deleted
number-9 player with `{is_active: true}` therefore performs no check,
succeeds, and leaves two active players wearing number 9 on the team —
the invariant is not preserved by every roster operation, and the claimed
check before "any change, including changes that set `is_active` back to
true" does not happen. -/
theorem update_player_reactivation_counterexample :
    jerseyInvariant baseDB.players 1 ∧
    update_player baseDB 1 2 reactivate (some "Bearer tokA") =
      .ok (pNineBack, reactivatedDB) ∧
    playerNine.is_active = true ∧ pNineBack.is_active = true ∧
    playerNine.team_id = pNineBack.team_id ∧
    playerNine.jersey_number = pNineBack.jersey_number ∧
    ¬ jerseyInvariant reactivatedDB.players 1 :=
  ⟨by decide, rfl, rfl, rfl, rfl, rfl, by decide⟩

/-- C1 amended: on a store with distinct row ids, the active-jersey
uniqueness invariant is preserved by every successful `add_player`, and by
every successful `update_player` whose request either contains a
`jersey_number` field (the checked case) or does not set `is_active` to true
(no reactivation).  The unchecked reactivation case is excluded — it is
exactly the case the counterexample shows can break the invariant. -/
theorem jersey_invariant_preservation :
    ∀ (db : DB) (tid : Nat) (pd : PlayerCreate) (authA authU : Option String)
      (newId pid : Nat) (u : PlayerUpdate) (pA pU : Player) (dbA dbU : DB),
      jerseyInvariant db.players tid →
      distinctIds db.players →
      (add_player db tid pd authA newId = .ok (pA, dbA) →
        jerseyInvariant dbA.players tid) ∧
      ((u.jersey_number.isSome ∨ u.is_active ≠ some true) →
        update_player db tid pid u authU = .ok (pU, dbU) →
        jerseyInvariant dbU.players tid) := by
  intro db tid pd authA authU newId pid u pA pU dbA dbU hInv hDist
  constructor
  · intro hok
    obtain ⟨hfind, hpA, hdbA⟩ := add_player_ok_inversion db tid pd authA newId pA dbA hok
    subst hdbA
    subst hpA
    unfold jerseyInvariant at hInv ⊢
    rw [List.pairwise_append]
    refine ⟨hInv, by simp, ?_⟩
    intro a ha b hb
    simp only [List.mem_singleton] at hb
    subst hb
    intro hat hbt haa hba heq
    exact (List.find?_eq_none.mp hfind a ha) (by simp [hat, haa, heq])
  · intro hcond hok
    obtain ⟨player, hpl, hfindU, hpU, hdbU⟩ :=
      update_player_ok_inversion db tid pid u authU pU dbU hok
    subst hdbU
    unfold jerseyInvariant at hInv ⊢
    unfold distinctIds at hDist
    apply pairwise_updateFirst db.players _ _ hInv hDist
    intro a ha hpa b hb hbid
    simp only [Bool.and_eq_true, beq_iff_eq] at hpa
    obtain ⟨haid, hateam⟩ := hpa
    rcases hj : u.jersey_number with _ | n
    · have hact : u.is_active ≠ some true := by
        rcases hcond with h | h
        · rw [hj] at h; simp at h
        · exact h
      have hteam' : (apply_player_update a u).team_id = a.team_id := rfl
      have hjersey' : (apply_player_update a u).jersey_number = a.jersey_number := by
        simp [apply_player_update, hj]
      have hactive' : (apply_player_update a u).is_active = true → a.is_active = true := by
        simp only [apply_player_update]
        rcases hia : u.is_active with _ | bb
        · simp
        · rcases bb with _ | _
          · simp
          · exact absurd hia hact
      constructor
      · intro hab h1 h2 h3 h4
        rw [hjersey']
        exact hab (hteam' ▸ h1) h2 (hactive' h3) h4
      · intro hba h1 h2 h3 h4
        rw [hjersey']
        exact hba h1 (hteam' ▸ h2) h3 (hactive' h4)
    · have hfind : db.players.find? (fun p => p.team_id == tid && p.jersey_number == n &&
          p.is_active && !(p.id == pid)) = none := hfindU n hj
      have hkey : ∀ c ∈ db.players, c.team_id = tid → c.is_active = true →
          c.jersey_number = n → c.id = pid := by
        intro c hc h1 h2 h3
        by_contra hne
        exact (List.find?_eq_none.mp hfind c hc) (by simp [h1, h2, h3, hne])
      have hfj : (apply_player_update a u).jersey_number = n := by
        simp [apply_player_update, hj]
      constructor
      · intro hab h1 h2 h3 h4
        rw [hfj]
        intro heq
        exact hbid (by rw [hkey b hb h2 h4 heq.symm, haid])
      · intro hba h1 h2 h3 h4
        rw [hfj]
        intro heq
        exact hbid (by rw [hkey b hb h1 h3 heq, haid])

/-- Roster request for a fresh number 10. -/
def pdTen : PlayerCreate :=
  { first_name := "D.", last_name := "Ten", jersey_number := 10, position := some "Goalie" }

/-- The row `add_player` builds for `pdTen`. -/
def pTen : Player :=
  { id := 3, team_id := 1, first_name := "D.", last_name := "Ten",
    jersey_number := 10, position := some "Goalie", is_active := true }

/-- The store after adding `pTen`. -/
def dbTen : DB := { baseDB with players := baseDB.players ++ [pTen] }

/-- Update request moving a player to number 15. -/
def updFifteen : PlayerUpdate := { jersey_number := some 15 }

/-- `playerNine` moved to number 15. -/
def pFifteen : Player := { playerNine with jersey_number := 15 }

/-- The store after renumbering `playerNine` to 15. -/
def dbFifteen : DB := { baseDB with players := [pFifteen, removedNine] }

/-- Witness for the amended C1: on the base store the invariant survives an
`add_player` of number 10 and an `update_player` renumbering to 15. -/
theorem jersey_invariant_preservation_witness :
    jerseyInvariant baseDB.players 1 ∧ distinctIds baseDB.players ∧
    jerseyInvariant dbTen.players 1 ∧ jerseyInvariant dbFifteen.players 1 :=
  ⟨by decide, by decide,
   (jersey_invariant_preservation baseDB 1 pdTen (some "Bearer tokA") (some "Bearer tokA")
      3 1 updFifteen pTen pFifteen dbTen dbFifteen (by decide) (by decide)).1 rfl,
   (jersey_invariant_preservation baseDB 1 pdTen (some "Bearer tokA") (some "Bearer tokA")
      3 1 updFifteen pTen pFifteen dbTen dbFifteen (by decide) (by decide)).2
     (by decide) rfl⟩

/-- Witness instantiating the C8 characterization at the inactive user
`carol`'s token. -/
theorem token_resolution_characterization_witness :
    (resolve_token baseDB "tokC" = none ↔
      ¬ ∃ tk u, tokenLookup baseDB "tokC" = some tk ∧
        userLookup baseDB tk.user_id = some u ∧ u.is_active = true) ∧
    (resolve_token_teams_new baseDB "tokC" = none ↔
      ¬ ∃ tk u, tokenLookup baseDB "tokC" = some tk ∧
        userLookup baseDB tk.user_id = some u) :=
  token_resolution_characterization baseDB "tokC"
